import Mathlib

/-!
Shallow embedding of the RAG request pipeline of the mandala-maya-genie
cognitive core: conversation memory population, window truncation, the
embedding provider adapter, the LLM factory, the pipeline orchestrator
and the HTTP boundary, together with theorems about the behaviour each
claim of the specification describes.

Python exceptions are rendered as `Except`; dictionaries read through
`.get` become structures with `Option` fields; floating point vector
entries (which are only ever passed through, never computed with) are
rendered as rationals.
-/

/-- A conversation history entry as supplied by the caller:
`{"role": ..., "content": ...}` (schemas/message.py, ConversationMessage). -/
structure Turn where
  role : String
  content : String
deriving DecidableEq

/-- A langchain chat message: HumanMessage or AIMessage (pipeline.py line 4). -/
inductive ChatMessage where
  | human (content : String)
  | ai (content : String)
deriving DecidableEq

/-- The memory population loop of build_chain (pipeline.py lines 33 to 38):
turns with role "user" become HumanMessage, turns with role "assistant"
become AIMessage, every other turn falls through both branches and is
skipped. -/
def populate_memory : List Turn → List ChatMessage
  | [] => []
  | msg :: rest =>
    if msg.role = "user" then .human msg.content :: populate_memory rest
    else if msg.role = "assistant" then .ai msg.content :: populate_memory rest
    else populate_memory rest

/-- The window size passed to ConversationBufferWindowMemory (pipeline.py
line 26): k = 10. -/
def windowK : Nat := 10

/-- The buffer of langchain ConversationBufferWindowMemory: the memory
stores every added message and exposes `messages[-2*k:]` when loaded
(the last k interaction pairs), or `[]` when k = 0. -/
def bufferWindow (k : Nat) (msgs : List ChatMessage) : List ChatMessage :=
  if 0 < k then msgs.drop (msgs.length - 2 * k) else []

/-- The conversation window the chain sees for a given caller history:
memory populated from the history (pipeline.py lines 33 to 38), then
truncated by the ConversationBufferWindowMemory buffer with k = 10. -/
def buildWindow (history : List Turn) : List ChatMessage :=
  bufferWindow windowK (populate_memory history)

/-- A retrieved source document as the pipeline reads it: the two
metadata keys consulted are "source" and "page" (pipeline.py lines 78
and 79), each possibly absent. -/
structure Doc where
  source : Option String
  page : Option Nat
deriving DecidableEq

/-- The display identifier derived for one document (pipeline.py lines
78 to 81): `metadata.get("source", "unknown")`, with `"_page_" + page`
appended when the "page" key is present. -/
def displayId (doc : Doc) : String :=
  match doc.page with
  | some page => doc.source.getD "unknown" ++ "_page_" ++ toString page
  | none => doc.source.getD "unknown"

/-- The source accumulation loop of run_pipeline (pipeline.py lines 75
to 83): each display identifier is appended only if not already in the
list. -/
def extractSources (docs : List Doc) : List String :=
  docs.foldl
    (fun sources doc =>
      if displayId doc ∈ sources then sources else sources ++ [displayId doc])
    []

/-- One step of first-seen deduplication, following the wording of the
specification: append only if not already present. -/
def dedupStep (acc : List String) (s : String) : List String :=
  if s ∈ acc then acc else acc ++ [s]

/-- First-seen-order deduplication of a list of display identifiers, as
the specification words it: walk the list, appending each identifier
only if not already present. -/
def dedupFirstSeen (l : List String) : List String :=
  l.foldl dedupStep []

/-- Errors of the embedding provider adapter, following the taxonomy of
the specification: requests timeout, raise_for_status on an HTTP error
status, and a response body without embedding values. -/
inductive ProviderError where
  | timeout
  | httpStatus (code : Nat)
  | malformedResponse
deriving DecidableEq

/-- The body of an HTTP response as embeddings.py line 32 reads it:
either a JSON object carrying `embedding.values`, or anything else
(which makes the lookup raise). -/
inductive ResponseBody where
  | embedding (values : List ℚ)
  | malformed
deriving DecidableEq

/-- The outcome of one requests.post call as observed by _embed: a
timeout, or a response with a status code and a body. -/
inductive HttpOutcome where
  | timeout
  | response (status : Nat) (body : ResponseBody)
deriving DecidableEq

/-- The JSON payload _embed posts (embeddings.py lines 24 to 28):
model, the text wrapped in content.parts, and taskType. -/
structure EmbedPayload where
  model : String
  text : String
  taskType : String
deriving DecidableEq

/-- The embedding model identifier (embeddings.py line 13). -/
def embeddingModel : String := "models/gemini-embedding-001"

/-- The timeout passed to requests.post (embeddings.py line 29). -/
def requestTimeoutSeconds : Nat := 30

/-- GeminiRESTEmbeddings._embed (embeddings.py lines 20 to 32),
abstracted over the transport `svc`: post the payload once; a timeout
raises; `raise_for_status` raises exactly on a 4xx or 5xx status; then
`resp.json()["embedding"]["values"]` raises when the body lacks the
embedding values, and otherwise its values are returned verbatim. -/
def _embed (svc : EmbedPayload → HttpOutcome) (text taskType : String) :
    Except ProviderError (List ℚ) :=
  match svc ⟨embeddingModel, text, taskType⟩ with
  | .timeout => .error .timeout
  | .response status body =>
    if 400 ≤ status ∧ status < 600 then .error (.httpStatus status)
    else
      match body with
      | .embedding values => .ok values
      | .malformed => .error .malformedResponse

/-- GeminiRESTEmbeddings.embed_documents (embeddings.py lines 34 to 35):
each text is embedded with task type RETRIEVAL_DOCUMENT. -/
def embed_documents (svc : EmbedPayload → HttpOutcome) (texts : List String) :
    List (Except ProviderError (List ℚ)) :=
  texts.map (fun t => _embed svc t "RETRIEVAL_DOCUMENT")

/-- GeminiRESTEmbeddings.embed_query (embeddings.py lines 37 to 38):
the text is embedded with task type RETRIEVAL_QUERY. -/
def embed_query (svc : EmbedPayload → HttpOutcome) (text : String) :
    Except ProviderError (List ℚ) :=
  _embed svc text "RETRIEVAL_QUERY"

/-- Errors that can escape the pipeline steps, following the taxonomy of
the specification. -/
inductive PipelineError where
  | validation (message : String)
  | provider (e : ProviderError)
  | retriever (message : String)
deriving DecidableEq

/-- The value chain.invoke returns to run_pipeline (pipeline.py line 73):
the answer and the source documents. -/
structure ChainResult where
  answer : String
  source_documents : List Doc
deriving DecidableEq

/-- The dictionary run_pipeline returns (pipeline.py lines 85 to 88). -/
structure PipelineOutput where
  response : String
  sources : List String
deriving DecidableEq

/-- run_pipeline (pipeline.py lines 67 to 88), abstracted over the chain
construction: build the chain (any exception propagates), invoke it (any
exception propagates), then collect deduplicated display identifiers —
the loop runs only when the source document list is truthy, that is,
non-empty. No exception is caught anywhere in the function. -/
def run_pipeline
    (chainBuild : Except PipelineError (String → Except PipelineError ChainResult))
    (message : String) : Except PipelineError PipelineOutput :=
  match chainBuild with
  | .error e => .error e
  | .ok chain =>
    match chain message with
    | .error e => .error e
    | .ok result =>
      .ok ⟨result.answer,
           if result.source_documents.isEmpty then []
           else extractSources result.source_documents⟩

/-- The HTTPException raised by the chat route (routes.py line 33). -/
structure HTTPExceptionModel where
  status_code : Nat
  detail : String
deriving DecidableEq

/-- The response body of the chat route (schemas/message.py,
ChatResponse). -/
structure ChatResponseModel where
  session_id : String
  response : String
  sources : List String
  model_used : String
deriving DecidableEq

/-- The chat route handler (routes.py lines 22 to 43), abstracted over
the pipeline call: any pipeline exception is caught and replaced by the
fixed HTTPException 500 with detail "Failed to generate response"; on
success the pipeline result is passed through. -/
def chat (session_id message model_used : String)
    (pipeline : String → Except PipelineError PipelineOutput) :
    Except HTTPExceptionModel ChatResponseModel :=
  match pipeline message with
  | .error _ => .error ⟨500, "Failed to generate response"⟩
  | .ok result => .ok ⟨session_id, result.response, result.sources, model_used⟩

/-- The configuration the LLM factory fixes for the chosen backend:
which provider branch was taken, the model identifier, the temperature
and the output token bound. -/
structure LLMConfig where
  provider : String
  model : String
  temperature : ℚ
  max_tokens : Nat
deriving DecidableEq

/-- Python str.lower applied per character (the provider names compared
against are ASCII). -/
def lowerString (s : String) : String := ⟨s.data.map Char.toLower⟩

/-- get_llm (llm/client.py lines 5 to 43), abstracted over the
environment: the provider is the LLM_PROVIDER variable, defaulting to
"anthropic", lowercased; each recognized branch constructs its backend
with temperature 0.3 and an output bound of 1024 tokens; any other
value raises ValueError naming the unsupported provider. -/
def get_llm (env : String → Option String) : Except String LLMConfig :=
  let provider := lowerString ((env "LLM_PROVIDER").getD "anthropic")
  if provider = "anthropic" then
    .ok ⟨"anthropic", (env "ANTHROPIC_MODEL").getD "claude-sonnet-4-20250514",
         3 / 10, 1024⟩
  else if provider = "openai" then
    .ok ⟨"openai", (env "OPENAI_MODEL").getD "gpt-4o-mini", 3 / 10, 1024⟩
  else if provider = "gemini" then
    .ok ⟨"gemini", (env "GEMINI_MODEL").getD "gemini-2.0-flash", 3 / 10, 1024⟩
  else if provider = "claude-code" then
    .ok ⟨"claude-code", (env "CLAUDE_CODE_MODEL").getD "claude-sonnet-4-6",
         3 / 10, 1024⟩
  else
    .error ("Unsupported LLM_PROVIDER: " ++ provider)

/-- The message translation the specification describes for well-formed
turns: role "user" becomes a HumanMessage and any other well-formed
turn an AIMessage. -/
def turnToMessage (t : Turn) : ChatMessage :=
  if t.role = "user" then .human t.content else .ai t.content

/-- A transport for the embedding adapter that answers the same text
with different vectors depending on the task type, to exhibit the
query/document asymmetry. -/
def modeSensitiveService (p : EmbedPayload) : HttpOutcome :=
  if p.taskType = "RETRIEVAL_QUERY" then .response 200 (.embedding [1])
  else .response 200 (.embedding [2])

/-- The source accumulation loop computes exactly first-seen
deduplication of the display identifiers. -/
theorem extractSources_eq_dedup (docs : List Doc) :
    extractSources docs = dedupFirstSeen (docs.map displayId) := by
  rw [extractSources, dedupFirstSeen, List.foldl_map]
  rfl

/-- Folding the accumulation step over documents whose display
identifiers are already accumulated leaves the accumulator unchanged. -/
theorem extract_foldl_absorb (docs : List Doc) (acc : List String)
    (h : ∀ d ∈ docs, displayId d ∈ acc) :
    docs.foldl
      (fun sources doc =>
        if displayId doc ∈ sources then sources else sources ++ [displayId doc])
      acc = acc := by
  induction docs generalizing acc with
  | nil => rfl
  | cons d rest ih =>
    rw [List.foldl_cons, if_pos (h d (List.mem_cons_self d rest))]
    exact ih acc fun d2 hd2 => h d2 (List.mem_cons_of_mem _ hd2)

/-- On a history whose turns all have a recognized role, the memory
population loop keeps every turn in order. -/
theorem populate_memory_wellFormed :
    ∀ history : List Turn,
      (∀ t ∈ history, t.role = "user" ∨ t.role = "assistant") →
      populate_memory history = history.map turnToMessage := by
  intro history
  induction history with
  | nil => intro _; rfl
  | cons t rest ih =>
    intro hw
    have hrest := ih fun u hu => hw u (List.mem_cons_of_mem _ hu)
    rcases hw t (List.mem_cons_self t rest) with h | h
    · simp [populate_memory, turnToMessage, h, hrest]
    · simp [populate_memory, turnToMessage, h, hrest]

/-- C1: the sources list run_pipeline returns is the first-seen-order
deduplication of the display identifiers of the retrieved passages,
where a passage with a source identifier displays as the identifier
alone without a page number and as identifier _page_ number with one;
on the passages A page 1, A page 1, B no page, A page 2 the output is
exactly A_page_1, B, A_page_2. -/
theorem c1_source_display_dedup :
    (∀ (ans msg : String) (docs : List Doc) (out : PipelineOutput),
        run_pipeline (.ok fun _ => .ok ⟨ans, docs⟩) msg = .ok out →
        out.sources = dedupFirstSeen (docs.map displayId))
    ∧ (∀ (d : Doc) (s : String), d.source = some s →
        displayId d = (match d.page with
          | some p => s ++ "_page_" ++ toString p
          | none => s))
    ∧ run_pipeline
        (.ok fun _ => .ok ⟨"ans",
          [⟨some "A", some 1⟩, ⟨some "A", some 1⟩, ⟨some "B", none⟩,
           ⟨some "A", some 2⟩]⟩)
        "q" = .ok ⟨"ans", ["A_page_1", "B", "A_page_2"]⟩ := by
  refine ⟨?_, ?_, by rfl⟩
  · intro ans msg docs out h
    simp only [run_pipeline] at h
    injection h with h
    subst h
    by_cases he : docs.isEmpty
    · rw [List.isEmpty_iff] at he
      subst he
      rfl
    · simp only [he, if_false]
      exact extractSources_eq_dedup docs
  · intro d s hs
    cases hp : d.page <;> simp [displayId, hs, hp]

/-- C1 witness: the general statement applied to a single passage with
source A and no page. -/
theorem c1_source_display_dedup_witness :
    (PipelineOutput.mk "a" ["A"]).sources
      = dedupFirstSeen ([Doc.mk (some "A") none].map displayId) :=
  c1_source_display_dedup.1 "a" "m" [⟨some "A", none⟩] ⟨"a", ["A"]⟩ (by rfl)

/-- C2 counterexample: a history containing a turn with role system is
accepted without any error, and the malformed turn is silently dropped —
the population loop produces the same memory as the history without that
turn, refuting the claim that such input is rejected with a
ValidationError. -/
theorem c2_counterexample :
    populate_memory [⟨"user", "hi"⟩, ⟨"system", "x"⟩]
        = populate_memory [⟨"user", "hi"⟩]
      ∧ populate_memory [⟨"user", "hi"⟩, ⟨"system", "x"⟩]
        = [ChatMessage.human "hi"] :=
  ⟨rfl, rfl⟩

/-- C2 amended: building the conversation memory never fails; a turn
whose role is neither user nor assistant is silently skipped, so the
memory is exactly the well-formed turns translated in order. -/
theorem c2_amended_silent_skip :
    ∀ history : List Turn,
      populate_memory history
        = (history.filter fun t => t.role == "user" || t.role == "assistant").map
            turnToMessage := by
  intro history
  induction history with
  | nil => rfl
  | cons t rest ih =>
    by_cases h1 : t.role = "user"
    · simp [populate_memory, List.filter_cons, h1, turnToMessage, ih]
    · by_cases h2 : t.role = "assistant"
      · simp [populate_memory, List.filter_cons, h1, h2, turnToMessage, ih]
      · simp [populate_memory, List.filter_cons, h1, h2, ih]

/-- C3: a failure of chain construction or of the chain invocation
leaves run_pipeline with the very same error and no partial output, and
the chat route maps every pipeline error to the one fixed, detail-free
HTTP 500 response. -/
theorem c3_error_propagation :
    (∀ (e : PipelineError) (msg : String), run_pipeline (.error e) msg = .error e)
    ∧ (∀ (chain : String → Except PipelineError ChainResult) (msg : String)
        (e : PipelineError), chain msg = .error e →
        run_pipeline (.ok chain) msg = .error e)
    ∧ (∀ (sid msg mu : String) (e : PipelineError),
        chat sid msg mu (fun _ => .error e)
          = .error ⟨500, "Failed to generate response"⟩) := by
  refine ⟨fun e msg => rfl, ?_, fun sid msg mu e => rfl⟩
  intro chain msg e h
  simp only [run_pipeline, h]

/-- C3 witness: a retriever failure inside the chain propagates out of
run_pipeline unchanged. -/
theorem c3_error_propagation_witness :
    run_pipeline (.ok fun _ => .error (.retriever "down")) "m"
      = .error (.retriever "down") :=
  c3_error_propagation.2.1 (fun _ => .error (.retriever "down")) "m"
    (.retriever "down") rfl

/-- C10: when the chain surfaces zero source documents, run_pipeline
succeeds and returns the generated answer with an empty sources list. -/
theorem c10_empty_retrieval_ok :
    ∀ answer msg : String,
      run_pipeline (.ok fun _ => .ok ⟨answer, []⟩) msg = .ok ⟨answer, []⟩ := by
  intro answer msg
  rfl

/-- C4 counterexample: a well-formed history of 22 user turns exceeds
the bound, yet the window the chain sees holds the last 20 turns, not
the last 10 the claim states. -/
theorem c4_counterexample :
    10 < (List.replicate 22 (Turn.mk "user" "m")).length
    ∧ (buildWindow (List.replicate 22 (Turn.mk "user" "m"))).length = 20
    ∧ (20 : Nat) ≠ 10 := by
  refine ⟨by decide, by decide, by decide⟩

/-- C4 amended: for well-formed histories the window preserves insertion
order — it is the suffix of the translated history left after dropping
all but the last 2 times k messages (k = 10, so the window covers the
last 20 turns, the most recent 10 pairs), evicting the oldest turns
first, and its length is the history length capped at 2 times k. -/
theorem c4_amended_window :
    ∀ history : List Turn,
      (∀ t ∈ history, t.role = "user" ∨ t.role = "assistant") →
      populate_memory history = history.map turnToMessage
      ∧ buildWindow history
          = (history.map turnToMessage).drop (history.length - 2 * windowK)
      ∧ (buildWindow history).length = min history.length (2 * windowK) := by
  intro history hw
  have hmap := populate_memory_wellFormed history hw
  have hwin : buildWindow history
      = (history.map turnToMessage).drop (history.length - 2 * windowK) := by
    rw [buildWindow, bufferWindow, if_pos (by decide : 0 < windowK), hmap,
      List.length_map]
  refine ⟨hmap, hwin, ?_⟩
  rw [hwin, List.length_drop, List.length_map]
  omega

/-- C4 amended witness: the amended statement applied to a singleton
well-formed history. -/
theorem c4_amended_window_witness :
    populate_memory [Turn.mk "user" "a"] = [Turn.mk "user" "a"].map turnToMessage
    ∧ buildWindow [Turn.mk "user" "a"]
        = ([Turn.mk "user" "a"].map turnToMessage).drop
            ([Turn.mk "user" "a"].length - 2 * windowK)
    ∧ (buildWindow [Turn.mk "user" "a"]).length
        = min [Turn.mk "user" "a"].length (2 * windowK) :=
  c4_amended_window [Turn.mk "user" "a"] (by decide)

/-- C8: a passage with no source key displays as unknown, with the page
suffix appended when a page is present, and any non-empty run of
passages lacking both keys collapses to the single entry unknown. -/
theorem c8_missing_source_unknown :
    (∀ d : Doc, d.source = none → d.page = none → displayId d = "unknown")
    ∧ (∀ (d : Doc) (p : Nat), d.source = none → d.page = some p →
        displayId d = "unknown" ++ "_page_" ++ toString p)
    ∧ (∀ docs : List Doc, docs ≠ [] →
        (∀ d ∈ docs, d.source = none ∧ d.page = none) →
        extractSources docs = ["unknown"]) := by
  refine ⟨?_, ?_, ?_⟩
  · intro d h1 h2
    simp [displayId, h1, h2]
  · intro d p h1 h2
    simp [displayId, h1, h2]
  · intro docs hne hall
    match docs with
    | [] => exact absurd rfl hne
    | d :: rest =>
      have hd : displayId d = "unknown" := by
        obtain ⟨h1, h2⟩ := hall d (List.mem_cons_self d rest)
        simp [displayId, h1, h2]
      have habs : ∀ d2 ∈ rest, displayId d2 ∈ ["unknown"] := by
        intro d2 hd2
        obtain ⟨h1, h2⟩ := hall d2 (List.mem_cons_of_mem _ hd2)
        simp [displayId, h1, h2]
      simp only [extractSources, List.foldl_cons, hd]
      rw [if_neg (by simp)]
      simpa using extract_foldl_absorb rest ["unknown"] habs

/-- C8 witness: two passages lacking both metadata keys collapse to one
unknown entry. -/
theorem c8_missing_source_unknown_witness :
    extractSources [Doc.mk none none, Doc.mk none none] = ["unknown"] :=
  c8_missing_source_unknown.2.2 [⟨none, none⟩, ⟨none, none⟩] (by decide)
    (by decide)

/-- C5: the adapter embeds queries by posting the payload with task type
RETRIEVAL_QUERY and documents with RETRIEVAL_DOCUMENT, returning the
vector the service answers for exactly that payload, so a service that
answers the same text differently per mode keeps the two modes
distinct. -/
theorem c5_task_type_modes :
    (∀ (svc : EmbedPayload → HttpOutcome) (text : String) (v : List ℚ)
        (s : Nat),
        svc ⟨embeddingModel, text, "RETRIEVAL_QUERY"⟩ = .response s (.embedding v) →
        s < 400 → embed_query svc text = .ok v)
    ∧ (∀ (svc : EmbedPayload → HttpOutcome) (text : String) (v : List ℚ)
        (s : Nat),
        svc ⟨embeddingModel, text, "RETRIEVAL_DOCUMENT"⟩
            = .response s (.embedding v) →
        s < 400 → embed_documents svc [text] = [.ok v])
    ∧ embed_query modeSensitiveService "txt" = .ok [1]
    ∧ embed_documents modeSensitiveService ["txt"] = [.ok [2]]
    ∧ (Except.ok [1] : Except ProviderError (List ℚ)) ≠ .ok [2] := by
  refine ⟨?_, ?_, by rfl, by rfl, by simp⟩
  · intro svc text v s h hs
    simp only [embed_query, _embed, h]
    rw [if_neg (by omega)]
  · intro svc text v s h hs
    simp only [embed_documents, List.map_cons, List.map_nil, _embed, h]
    rw [if_neg (by omega)]

/-- C5 witness: the query-mode statement applied to the mode-sensitive
service. -/
theorem c5_task_type_modes_witness :
    embed_query modeSensitiveService "w" = .ok [1] :=
  c5_task_type_modes.1 modeSensitiveService "w" [1] 200 rfl (by decide)

/-- C6 counterexample: status 303 is not a 2xx status, yet _embed
returns the body values successfully instead of failing with a
ProviderError, because raise_for_status only raises on 4xx and 5xx. -/
theorem c6_counterexample :
    ¬(200 ≤ 303 ∧ 303 < 300)
    ∧ _embed (fun _ => .response 303 (.embedding [1])) "t" "RETRIEVAL_QUERY"
        = .ok [1] :=
  ⟨by decide, rfl⟩

/-- C6 amended: the wait passed to the transport is bounded at 30 time
units; a timeout, a 4xx or 5xx status, or a response body lacking the
embedding values each fail with the corresponding propagated provider
error; and a successful result is always the vector of the single
service response, never a fabricated fallback. -/
theorem c6_amended_transport_errors :
    requestTimeoutSeconds = 30
    ∧ (∀ (svc : EmbedPayload → HttpOutcome) (text taskType : String),
        svc ⟨embeddingModel, text, taskType⟩ = .timeout →
        _embed svc text taskType = .error .timeout)
    ∧ (∀ (svc : EmbedPayload → HttpOutcome) (text taskType : String)
        (s : Nat) (b : ResponseBody),
        svc ⟨embeddingModel, text, taskType⟩ = .response s b →
        400 ≤ s → s < 600 → _embed svc text taskType = .error (.httpStatus s))
    ∧ (∀ (svc : EmbedPayload → HttpOutcome) (text taskType : String)
        (s : Nat),
        svc ⟨embeddingModel, text, taskType⟩ = .response s .malformed →
        ¬(400 ≤ s ∧ s < 600) →
        _embed svc text taskType = .error .malformedResponse)
    ∧ (∀ (svc : EmbedPayload → HttpOutcome) (text taskType : String)
        (v : List ℚ),
        _embed svc text taskType = .ok v →
        ∃ s, ¬(400 ≤ s ∧ s < 600)
          ∧ svc ⟨embeddingModel, text, taskType⟩ = .response s (.embedding v)) := by
  refine ⟨rfl, ?_, ?_, ?_, ?_⟩
  · intro svc text taskType h
    simp only [_embed, h]
  · intro svc text taskType s b h h4 h6
    simp only [_embed, h]
    rw [if_pos ⟨h4, h6⟩]
  · intro svc text taskType s h hs
    simp only [_embed, h]
    rw [if_neg hs]
  · intro svc text taskType v h
    cases hsvc : svc ⟨embeddingModel, text, taskType⟩ with
    | timeout =>
      rw [show _embed svc text taskType = .error .timeout from by
        simp only [_embed, hsvc]] at h
      exact Except.noConfusion h
    | response s b =>
      by_cases hr : 400 ≤ s ∧ s < 600
      · rw [show _embed svc text taskType = .error (.httpStatus s) from by
          simp only [_embed, hsvc]
          rw [if_pos hr]] at h
        exact Except.noConfusion h
      · cases b with
        | embedding values =>
          rw [show _embed svc text taskType = .ok values from by
            simp only [_embed, hsvc]
            rw [if_neg hr]] at h
          injection h with h
          subst h
          exact ⟨s, hr, rfl⟩
        | malformed =>
          rw [show _embed svc text taskType = .error .malformedResponse from by
            simp only [_embed, hsvc]
            rw [if_neg hr]] at h
          exact Except.noConfusion h

/-- C6 amended witness: the timeout statement applied to a transport
that always times out. -/
theorem c6_amended_transport_errors_witness :
    _embed (fun _ => .timeout) "t" "RETRIEVAL_QUERY" = .error .timeout :=
  c6_amended_transport_errors.2.1 (fun _ => .timeout) "t" "RETRIEVAL_QUERY" rfl

/-- C7: every configuration for which the LLM factory succeeds yields a
backend fixed at temperature 0.3 and an output bound of 1024 tokens,
identically for every recognized provider. -/
theorem c7_generation_params :
    ∀ (env : String → Option String) (cfg : LLMConfig),
      get_llm env = .ok cfg →
      cfg.temperature = 3 / 10 ∧ cfg.max_tokens = 1024 := by
  intro env cfg h
  simp only [get_llm] at h
  repeat' split at h
  all_goals first
    | exact Except.noConfusion h
    | (injection h with h; subst h; exact ⟨rfl, rfl⟩)

/-- C7 witness: the statement applied to the empty environment, which
selects the default anthropic provider. -/
theorem c7_generation_params_witness :
    (LLMConfig.mk "anthropic" "claude-sonnet-4-20250514" (3 / 10)
        1024).temperature = 3 / 10
    ∧ (LLMConfig.mk "anthropic" "claude-sonnet-4-20250514" (3 / 10)
        1024).max_tokens = 1024 :=
  c7_generation_params (fun _ => none)
    ⟨"anthropic", "claude-sonnet-4-20250514", 3 / 10, 1024⟩
    (by
      simp only [get_llm, Option.getD_none]
      rw [if_pos (by decide)])

/-- C9: a configured provider whose lowercase form is outside the
recognized set makes the factory fail with the ValueError naming that
provider, and an unset provider defaults to the anthropic branch. -/
theorem c9_unsupported_provider :
    (∀ (env : String → Option String) (s : String),
        env "LLM_PROVIDER" = some s →
        lowerString s ∉ ["anthropic", "openai", "gemini", "claude-code"] →
        get_llm env = .error ("Unsupported LLM_PROVIDER: " ++ lowerString s))
    ∧ (∀ (env : String → Option String) (cfg : LLMConfig),
        env "LLM_PROVIDER" = none → get_llm env = .ok cfg →
        cfg.provider = "anthropic") := by
  constructor
  · intro env s h hs
    simp only [List.mem_cons, List.not_mem_nil, or_false, not_or] at hs
    obtain ⟨h1, h2, h3, h4⟩ := hs
    simp only [get_llm, h, Option.getD_some]
    rw [if_neg h1, if_neg h2, if_neg h3, if_neg h4]
  · intro env cfg h hok
    rw [show get_llm env
        = .ok ⟨"anthropic",
            (env "ANTHROPIC_MODEL").getD "claude-sonnet-4-20250514",
            3 / 10, 1024⟩ from by
      simp only [get_llm, h, Option.getD_none]
      rw [if_pos (by decide)]] at hok
    injection hok with hok
    subst hok
    rfl

/-- C9 witness: the statement applied to an environment selecting the
provider mistral. -/
theorem c9_unsupported_provider_witness :
    get_llm (fun _ => some "mistral")
      = .error ("Unsupported LLM_PROVIDER: " ++ lowerString "mistral") :=
  c9_unsupported_provider.1 (fun _ => some "mistral") "mistral" rfl (by decide)
